import Mathlib

/-!
Verification of the spatial-statistics engine of the `us-counties-and-maga`
repository against its design specification.

The embedded code comes from two files:
  * `scripts/export_esda_for_web.py` — the ESDA export pipeline: cached-column
    checks, per-attribute valid-count guards, LISA cluster rejoin, bivariate
    guard, and Getis-Ord hot-spot confidence-tier classification;
  * `src/pain_politics/features/spatial.py` — `build_spatial_weights` and
    `add_spatial_lag`.

Numeric values (p-values, statistics, weights) are modelled as rationals;
missing attribute values as `Option ℚ`; a dataframe's column set as a
`List String`; pandas label-based (`.loc`) assignment as key-based lookup.
-/

/-! ## Hot-spot classification (export_esda_for_web.py, lines 145–162)

The script initializes `<var>_hotspot_conf` to `"Not Significant"` for every
county and then applies six `.loc` mask assignments in order: the 99% band
(`p_sim < 0.01`) split by the sign of the Gi statistic, the 95% band
(`0.01 <= p_sim < 0.05`), and the 90% band (`0.05 <= p_sim < 0.10`).
`hotspotLabel` replays those assignments for a single unit with pseudo
p-value `p` and statistic `g`. -/
def hotspotLabel (p g : ℚ) : String :=
  let l0 := "Not Significant"
  let l1 := if p < 1/100 ∧ 0 < g then "Hot Spot - 99% Conf" else l0
  let l2 := if p < 1/100 ∧ g < 0 then "Cold Spot - 99% Conf" else l1
  let l3 := if (p < 5/100 ∧ 1/100 ≤ p) ∧ 0 < g then "Hot Spot - 95% Conf" else l2
  let l4 := if (p < 5/100 ∧ 1/100 ≤ p) ∧ g < 0 then "Cold Spot - 95% Conf" else l3
  let l5 := if (p < 10/100 ∧ 5/100 ≤ p) ∧ 0 < g then "Hot Spot - 90% Conf" else l4
  let l6 := if (p < 10/100 ∧ 5/100 ≤ p) ∧ g < 0 then "Cold Spot - 90% Conf" else l5
  l6

/-- The seven admissible hot-spot labels. -/
def hotspotLabels : List String :=
  ["Hot Spot - 99% Conf", "Cold Spot - 99% Conf",
   "Hot Spot - 95% Conf", "Cold Spot - 95% Conf",
   "Hot Spot - 90% Conf", "Cold Spot - 90% Conf",
   "Not Significant"]

/-- The classification as the spec's table words it: disjoint p-value bands
evaluated strictest first, first match wins, sign of the statistic choosing
hot versus cold, default `"Not Significant"`. -/
def hotspotTier (p g : ℚ) : String :=
  if p < 1/100 ∧ 0 < g then "Hot Spot - 99% Conf"
  else if p < 1/100 ∧ g < 0 then "Cold Spot - 99% Conf"
  else if (p < 5/100 ∧ 1/100 ≤ p) ∧ 0 < g then "Hot Spot - 95% Conf"
  else if (p < 5/100 ∧ 1/100 ≤ p) ∧ g < 0 then "Cold Spot - 95% Conf"
  else if (p < 10/100 ∧ 5/100 ≤ p) ∧ 0 < g then "Hot Spot - 90% Conf"
  else if (p < 10/100 ∧ 5/100 ≤ p) ∧ g < 0 then "Cold Spot - 90% Conf"
  else "Not Significant"

/-- Unfolding the sequential-overwrite chain of `hotspotLabel`: a later
`.loc` assignment takes precedence, so inlining the bindings yields the
reversed if-chain. Purely definitional. -/
theorem hotspotLabel_unfold (p g : ℚ) :
    hotspotLabel p g =
      (if (p < 10/100 ∧ 5/100 ≤ p) ∧ g < 0 then "Cold Spot - 90% Conf"
       else if (p < 10/100 ∧ 5/100 ≤ p) ∧ 0 < g then "Hot Spot - 90% Conf"
       else if (p < 5/100 ∧ 1/100 ≤ p) ∧ g < 0 then "Cold Spot - 95% Conf"
       else if (p < 5/100 ∧ 1/100 ≤ p) ∧ 0 < g then "Hot Spot - 95% Conf"
       else if p < 1/100 ∧ g < 0 then "Cold Spot - 99% Conf"
       else if p < 1/100 ∧ 0 < g then "Hot Spot - 99% Conf"
       else "Not Significant") := rfl

/-- C2: for every pseudo p-value and statistic, the hot-spot code assigns
exactly one of the seven labels, and that label is the one picked by the
spec's disjoint bands (strictest first, sign of the statistic, default
`"Not Significant"`). -/
theorem hotspot_classification_correct (p g : ℚ) :
    hotspotLabel p g = hotspotTier p g ∧ hotspotLabel p g ∈ hotspotLabels := by
  constructor
  · rw [hotspotLabel_unfold]
    unfold hotspotTier
    split_ifs <;> first | rfl | (exfalso; casesm* _ ∧ _ <;> linarith)
  · rw [hotspotLabel_unfold]
    split_ifs <;> simp [hotspotLabels]

/-! ## LISA cluster rejoin (export_esda_for_web.py, lines 76–83)

After `Moran_Local` runs on the valid subset, the script initializes
`<var>_lisa_cluster` to `"Not Significant"` for every county and then
assigns, via label-based `.loc` on `valid_indices[sig & (lisa.q == c)]`,
the quadrant label for significant subset units: quadrant 1 ↦ HH,
2 ↦ LH, 3 ↦ LL, 4 ↦ HL, with `sig = lisa.p_sim < 0.05`.

A subset result is a triple `(key, p_sim, q)`: the unit's dataframe index
label, its pseudo p-value, and its Moran quadrant. -/

/-- The `.loc` mask `sig & (lisa.q == q)` restricted to key `k`: does the
subset contain a result for key `k` with `p_sim < 0.05` and quadrant `q`? -/
def lisaMask (subset : List (String × ℚ × ℕ)) (k : String) (q : ℕ) : Bool :=
  subset.any (fun r => r.1 == k && decide (r.2.1 < 5/100) && r.2.2 == q)

/-- The label the rejoin gives key `k`: start from `"Not Significant"`,
then replay the four `.loc` assignments of the source in order. -/
def lisaLabelFor (subset : List (String × ℚ × ℕ)) (k : String) : String :=
  let l0 := "Not Significant"
  let l1 := if lisaMask subset k 1 then "HH" else l0
  let l2 := if lisaMask subset k 2 then "LH" else l1
  let l3 := if lisaMask subset k 3 then "LL" else l2
  let l4 := if lisaMask subset k 4 then "HL" else l3
  l4

/-- The full-length rejoined column: one label per key of the full
ordered key list, each obtained by key-based lookup in the subset. -/
def lisaRejoin (fullKeys : List String) (subset : List (String × ℚ × ℕ)) :
    List String :=
  fullKeys.map (lisaLabelFor subset)

/-- Quadrant number to cluster label, as the source's four assignments
spell it out. -/
def quadrantLabel (q : ℕ) : String :=
  if q = 1 then "HH" else if q = 2 then "LH" else if q = 3 then "LL"
  else if q = 4 then "HL" else "Not Significant"

/-- Inlining the sequential-overwrite chain of `lisaLabelFor` (later
assignments take precedence). Purely definitional. -/
theorem lisaLabelFor_unfold (subset : List (String × ℚ × ℕ)) (k : String) :
    lisaLabelFor subset k =
      (if lisaMask subset k 4 then "HL"
       else if lisaMask subset k 3 then "LL"
       else if lisaMask subset k 2 then "LH"
       else if lisaMask subset k 1 then "HH"
       else "Not Significant") := rfl

/-- The mask holds exactly when the subset has a significant result for
that key in that quadrant. -/
theorem lisaMask_true_iff (subset : List (String × ℚ × ℕ)) (k : String) (q : ℕ) :
    lisaMask subset k q = true ↔ ∃ p, (k, p, q) ∈ subset ∧ p < 5/100 := by
  unfold lisaMask
  simp only [List.any_eq_true, Bool.and_eq_true, beq_iff_eq, decide_eq_true_eq]
  constructor
  · rintro ⟨⟨k', p', q'⟩, hmem, ⟨hk, hp⟩, hq⟩
    subst hk; subst hq
    exact ⟨p', hmem, hp⟩
  · rintro ⟨p, hmem, hp⟩
    exact ⟨(k, p, q), hmem, ⟨rfl, hp⟩, rfl⟩

/-- With a duplicate-free key column (a pandas index), a key determines
its subset result uniquely. -/
theorem subset_key_unique (subset : List (String × ℚ × ℕ))
    (hnd : (subset.map Prod.fst).Nodup) (k : String) (p p' : ℚ) (q q' : ℕ)
    (h : (k, p, q) ∈ subset) (h' : (k, p', q') ∈ subset) : p = p' ∧ q = q' := by
  have heq : ((k, p, q) : String × ℚ × ℕ) = (k, p', q') :=
    List.inj_on_of_nodup_map hnd h h' rfl
  have h2 := congrArg Prod.snd heq
  exact ⟨congrArg Prod.fst h2, congrArg Prod.snd h2⟩

theorem lisaMask_false_of_ne (subset : List (String × ℚ × ℕ))
    (hnd : (subset.map Prod.fst).Nodup) (k : String) (p : ℚ) (q q' : ℕ)
    (h : (k, p, q) ∈ subset) (hne : q' ≠ q) : lisaMask subset k q' = false := by
  rw [Bool.eq_false_iff]
  intro htrue
  obtain ⟨p', hm, -⟩ := (lisaMask_true_iff subset k q').mp htrue
  exact hne ((subset_key_unique subset hnd k p p' q q' h hm).2).symm

theorem lisaMask_false_of_not_sig (subset : List (String × ℚ × ℕ))
    (hnd : (subset.map Prod.fst).Nodup) (k : String) (p : ℚ) (q q' : ℕ)
    (h : (k, p, q) ∈ subset) (hp : ¬ p < 5/100) : lisaMask subset k q' = false := by
  rw [Bool.eq_false_iff]
  intro htrue
  obtain ⟨p', hm, hp'⟩ := (lisaMask_true_iff subset k q').mp htrue
  exact hp ((subset_key_unique subset hnd k p p' q q' h hm).1 ▸ hp')

theorem lisaMask_false_of_not_mem (subset : List (String × ℚ × ℕ))
    (k : String) (q : ℕ) (h : k ∉ subset.map Prod.fst) :
    lisaMask subset k q = false := by
  rw [Bool.eq_false_iff]
  intro htrue
  obtain ⟨p, hm, -⟩ := (lisaMask_true_iff subset k q).mp htrue
  exact h (List.mem_map.mpr ⟨(k, p, q), hm, rfl⟩)

theorem lisaMask_perm (subset subset' : List (String × ℚ × ℕ))
    (k : String) (q : ℕ) (h : subset.Perm subset') :
    lisaMask subset k q = lisaMask subset' k q := by
  rw [Bool.eq_iff_iff, lisaMask_true_iff, lisaMask_true_iff]
  constructor <;> rintro ⟨p, hm, hp⟩
  · exact ⟨p, h.mem_iff.mp hm, hp⟩
  · exact ⟨p, h.mem_iff.mpr hm, hp⟩

/-- C3: the rejoin assigns every key its label by key-based lookup:
a subset unit significant at `p_sim < 0.05` with quadrant 1–4 gets its
quadrant label, a non-significant subset unit gets `"Not Significant"`,
a key excluded from the subset gets `"Not Significant"`, and scrambling
the subset's internal order leaves the full-length rejoined column
unchanged. -/
theorem lisa_rejoin_correct (fullKeys : List String)
    (subset : List (String × ℚ × ℕ))
    (hnd : (subset.map Prod.fst).Nodup) :
    (∀ k p q, (k, p, q) ∈ subset → 1 ≤ q → q ≤ 4 →
      lisaLabelFor subset k =
        (if p < 5/100 then quadrantLabel q else "Not Significant")) ∧
    (∀ k, k ∉ subset.map Prod.fst →
      lisaLabelFor subset k = "Not Significant") ∧
    (∀ subset', subset.Perm subset' →
      lisaRejoin fullKeys subset = lisaRejoin fullKeys subset') := by
  refine ⟨?_, ?_, ?_⟩
  · intro k p q hmem h1 h4
    by_cases hp : p < 5/100
    · rw [if_pos hp, lisaLabelFor_unfold]
      have htrue : lisaMask subset k q = true :=
        (lisaMask_true_iff subset k q).mpr ⟨p, hmem, hp⟩
      interval_cases q
      · rw [lisaMask_false_of_ne subset hnd k p 1 4 hmem (by decide),
          lisaMask_false_of_ne subset hnd k p 1 3 hmem (by decide),
          lisaMask_false_of_ne subset hnd k p 1 2 hmem (by decide), htrue]
        rfl
      · rw [lisaMask_false_of_ne subset hnd k p 2 4 hmem (by decide),
          lisaMask_false_of_ne subset hnd k p 2 3 hmem (by decide), htrue]
        rfl
      · rw [lisaMask_false_of_ne subset hnd k p 3 4 hmem (by decide), htrue]
        rfl
      · rw [htrue]
        rfl
    · rw [if_neg hp, lisaLabelFor_unfold,
        lisaMask_false_of_not_sig subset hnd k p q 4 hmem hp,
        lisaMask_false_of_not_sig subset hnd k p q 3 hmem hp,
        lisaMask_false_of_not_sig subset hnd k p q 2 hmem hp,
        lisaMask_false_of_not_sig subset hnd k p q 1 hmem hp]
      rfl
  · intro k hk
    rw [lisaLabelFor_unfold,
      lisaMask_false_of_not_mem subset k 4 hk,
      lisaMask_false_of_not_mem subset k 3 hk,
      lisaMask_false_of_not_mem subset k 2 hk,
      lisaMask_false_of_not_mem subset k 1 hk]
    rfl
  · intro subset' hperm
    unfold lisaRejoin
    congr 1
    funext k
    rw [lisaLabelFor_unfold, lisaLabelFor_unfold,
      lisaMask_perm subset subset' k 4 hperm,
      lisaMask_perm subset subset' k 3 hperm,
      lisaMask_perm subset subset' k 2 hperm,
      lisaMask_perm subset subset' k 1 hperm]

/-- Witness for C3 at a concrete subset: key `a` significant in quadrant 1
gets `HH`, and key `c`, excluded from the subset, gets `"Not Significant"`. -/
theorem lisa_rejoin_correct_witness :
    lisaLabelFor [("a", 1/100, 1), ("b", 1/2, 3)] "a" = "HH" ∧
    lisaLabelFor [("a", 1/100, 1), ("b", 1/2, 3)] "c" = "Not Significant" := by
  have h := lisa_rejoin_correct ["a", "b", "c"]
    [("a", 1/100, 1), ("b", 1/2, 3)] (by decide)
  constructor
  · have h1 := h.1 "a" (1/100) 1 (List.mem_cons_self _ _) (by decide) (by decide)
    rw [h1, if_pos (by norm_num)]
    rfl
  · exact h.2.1 "c" (by decide)

/-! ## Valid-count guards and skip paths (export_esda_for_web.py)

Each analysis first subsets to rows where the attribute is non-null
(`valid_mask = gdf[var].notna()`) and then runs only under
`if len(valid_indices) > 100:` — lines 64 (univariate LISA), 97
(bivariate LISA) and 133 (hot spots). There is no `else` branch: when
the guard fails, nothing is computed, no column is created, no status is
recorded, no exception is raised, and the enclosing `for var in [...]`
loop moves on to the next attribute.

The bivariate block (lines 90–97) is additionally guarded by
`if all(col in gdf.columns for col in [...])`; a missing column likewise
falls through silently. -/

/-- Number of valid (non-null) values of an attribute: `notna()` count. -/
def validCount (vals : List (Option ℚ)) : ℕ :=
  (vals.filter Option.isSome).length

/-- The guard `len(valid_indices) > 100` of lines 64, 97 and 133. -/
def sampleThresholdMet (n : ℕ) : Bool :=
  decide (100 < n)

/-- The per-attribute univariate LISA step: under the valid-count guard,
produce the rejoined cluster column; otherwise produce nothing (the
column is never created). `subsetResults` stands for the `Moran_Local`
output on the valid subset. -/
def lisaStepForVar (fullKeys : List String) (vals : List (Option ℚ))
    (subsetResults : List (String × ℚ × ℕ)) : Option (List String) :=
  if sampleThresholdMet (validCount vals) then
    some (lisaRejoin fullKeys subsetResults)
  else none

/-- The `for var in [...]` LISA loop: one outcome per attribute, in order. -/
def lisaLoop (fullKeys : List String)
    (varsData : List (List (Option ℚ) × List (String × ℚ × ℕ))) :
    List (Option (List String)) :=
  varsData.map (fun vd => lisaStepForVar fullKeys vd.1 vd.2)

/-- The per-attribute hot-spot step (line 133's guard around the G_Local
computation); `computedColumn` stands for the classified column the
guarded body would produce. -/
def hotspotStepForVar (vals : List (Option ℚ)) (computedColumn : List String) :
    Option (List String) :=
  if sampleThresholdMet (validCount vals) then some computedColumn else none

/-- The two columns the bivariate block requires (line 92). -/
def bvRequiredCols : List String :=
  ["freq_phys_distress_pct", "trump_share_2016"]

/-- Line 92's guard: both attributes present among the dataframe columns. -/
def bvGuard (cols : List String) : Bool :=
  bvRequiredCols.all (fun c => cols.contains c)

/-- The bivariate LISA block, lines 90–118: a missing column or an
unmet valid-count guard falls through with no exception and no output
column; only when both guards pass is the computed column produced.
`Except.error` would model an uncaught exception reaching the caller —
no path of the block produces one. -/
def bvStep (cols : List String) (validBoth : ℕ) (computed : List String) :
    Except String (Option (List String)) :=
  if bvGuard cols then
    if sampleThresholdMet validBoth then Except.ok (some computed)
    else Except.ok none
  else Except.ok none

/-- C4 counterexample: with exactly 100 valid units every one of the
three guarded computations is skipped — `len(valid_indices) > 100` is
strict, so "at least 100" is not enough. -/
theorem threshold_exactly_100_skipped :
    validCount (List.replicate 100 (some (1 : ℚ))) = 100 ∧
    lisaStepForVar ["k"] (List.replicate 100 (some (1 : ℚ))) [] = none ∧
    hotspotStepForVar (List.replicate 100 (some (1 : ℚ))) [] = none ∧
    bvStep bvRequiredCols 100 [] = Except.ok none :=
  ⟨rfl, rfl, rfl, rfl⟩

/-- C4 amended: each local-statistic computation runs iff strictly more
than 100 units (at least 101) have valid values; at or below 100 valid
units — including exactly 100 — it is skipped. -/
theorem threshold_strict_amended (fullKeys : List String)
    (vals : List (Option ℚ)) (subsetResults : List (String × ℚ × ℕ))
    (cols : List String) (n : ℕ) (computed : List String) :
    ((lisaStepForVar fullKeys vals subsetResults).isSome ↔
      101 ≤ validCount vals) ∧
    ((hotspotStepForVar vals computed).isSome ↔ 101 ≤ validCount vals) ∧
    (bvGuard cols = true →
      (bvStep cols n computed = Except.ok (some computed) ↔ 101 ≤ n)) := by
  refine ⟨?_, ?_, ?_⟩
  · by_cases h : 100 < validCount vals <;>
      simp [lisaStepForVar, sampleThresholdMet, h] <;> omega
  · by_cases h : 100 < validCount vals <;>
      simp [hotspotStepForVar, sampleThresholdMet, h] <;> omega
  · intro hg
    by_cases h : 100 < n <;>
      simp [bvStep, sampleThresholdMet, hg, h] <;> omega

/-- Witness for C4's amended theorem: 101 valid units are computed,
and the bivariate branch with both columns present and 101 valid rows
produces its column. -/
theorem threshold_strict_amended_witness :
    (lisaStepForVar ["k"] (List.replicate 101 (some (1 : ℚ))) []).isSome ∧
    bvStep bvRequiredCols 101 ["HH"] = Except.ok (some ["HH"]) := by
  have h := threshold_strict_amended ["k"] (List.replicate 101 (some (1 : ℚ)))
    [] bvRequiredCols 101 ["HH"]
  exact ⟨h.1.mpr (by decide), (h.2.2 (by decide)).mpr (by decide)⟩

/-- C5 counterexample: with 50 valid units (below the threshold) the LISA
step produces nothing at all — no output column, hence no per-unit
"insufficient data" status in lieu of a label; the skip is silent. -/
theorem insufficient_data_skip_silent :
    validCount (List.replicate 50 (some (1 : ℚ))) = 50 ∧
    lisaStepForVar ["k"] (List.replicate 50 (some (1 : ℚ))) [] = none :=
  ⟨rfl, rfl⟩

/-- C5 amended: below the threshold the engine raises no error and
records nothing — the step yields `none` (the column is never created,
no status is written) — and the loop still processes every remaining
attribute. -/
theorem insufficient_data_amended (fullKeys : List String)
    (vals : List (Option ℚ)) (res : List (String × ℚ × ℕ))
    (varsData : List (List (Option ℚ) × List (String × ℚ × ℕ)))
    (h : validCount vals ≤ 100) :
    lisaStepForVar fullKeys vals res = none ∧
    lisaLoop fullKeys ((vals, res) :: varsData) =
      none :: lisaLoop fullKeys varsData := by
  have hf : sampleThresholdMet (validCount vals) = false := by
    simp [sampleThresholdMet]
    omega
  constructor
  · simp [lisaStepForVar, hf]
  · simp [lisaLoop, lisaStepForVar, hf]

/-- Witness for C5's amended theorem at 50 valid units and one further
attribute in the loop. -/
theorem insufficient_data_amended_witness :
    lisaStepForVar ["k"] (List.replicate 50 (some (1 : ℚ))) [] = none ∧
    lisaLoop ["k"] [(List.replicate 50 (some (1 : ℚ)), []), ([some 2], [])] =
      none :: lisaLoop ["k"] [([some 2], [])] :=
  insufficient_data_amended ["k"] (List.replicate 50 (some (1 : ℚ))) []
    [([some 2], [])] (by decide)

/-- C6 counterexample: with `trump_share_2016` absent from the columns the
bivariate block returns `Except.ok none` — a silent skip with no output —
rather than any configuration error. -/
theorem bv_missing_column_silent :
    bvStep ["fips", "freq_phys_distress_pct"] 3000 ["HH"] = Except.ok none :=
  rfl

/-- C6 amended: when either required attribute is absent the bivariate
guard is false and the block silently does nothing — it neither raises a
configuration error nor produces a column; no execution path of the block
yields an error value. -/
theorem bv_guard_amended (cols : List String) (n : ℕ) (computed : List String)
    (h : bvGuard cols = false) :
    bvStep cols n computed = Except.ok none ∧
    ∀ e, bvStep cols n computed ≠ Except.error e := by
  refine ⟨by simp [bvStep, h], ?_⟩
  intro e
  simp [bvStep, h]

/-- Witness for C6's amended theorem at concrete columns missing
`trump_share_2016`. -/
theorem bv_guard_amended_witness :
    bvStep ["fips"] 3000 [] = Except.ok none ∧
    ∀ e, bvStep ["fips"] 3000 [] ≠ Except.error e :=
  bv_guard_amended ["fips"] 3000 [] (by decide)

/-! ## Spatial weights construction (spatial.py, lines 15–32)

`build_spatial_weights` type-checks its input, dispatches on
`weight_type` to the `Queen`, `Rook` or `KNN` constructor (raising
`ValueError` for anything else), then sets `w.transform = "r"` and
returns the weights object. The three library constructors are modelled
as parameters: the graph each would build, given as per-unit neighbor
lists of `(index, weight)` pairs. An island is an empty neighbor list. -/

/-- Sum of a unit's outgoing weights. -/
def rowWeightSum (row : List (ℕ × ℚ)) : ℚ :=
  (row.map (fun nb => nb.2)).sum

/-- Modelled from the spec: `w.transform = "r"` is a library
(row-standardization) operation whose code is not in the repository; the
spec states "each unit's neighbor weights are scaled to sum to 1 (0 for
islands)". Each row is divided by its weight sum; a zero-sum row (an
island's empty list) is left as is. -/
def rowStandardize (rows : List (List (ℕ × ℚ))) : List (List (ℕ × ℚ)) :=
  rows.map (fun row =>
    let s := rowWeightSum row
    if s = 0 then row else row.map (fun nb => (nb.1, nb.2 / s)))

/-- Modelled from the spec: the libpysal `KNN` constructor, code not in
the repository. The spec's failure clause says construction fails for
`k ≤ 0`: tracing the library, a negative `k` makes the underlying scipy
query (`k+1 ≤ 0` neighbors) raise `ValueError`, and `k = 0` makes the
scalar `k = 1` self-query come back squeezed so neighbor assembly raises
`AttributeError` — either way an exception is raised before any weights
object exists. For `k ≥ 1` the constructor returns the k-nearest-neighbor
graph `knnGraph k`. -/
def knnConstructor (knnGraph : ℤ → List (List (ℕ × ℚ))) (k : ℤ) :
    Except String (List (List (ℕ × ℚ))) :=
  if k ≤ 0 then Except.error "KNN construction raises for nonpositive k"
  else Except.ok (knnGraph k)

/-- `build_spatial_weights` from `spatial.py`: the `isGeoDataFrame` flag
models the `isinstance` check; `queenW` and `rookW` model the graphs the
two contiguity constructors return (binary, hence positive, weights);
`knnW` models the fallible k-NN library constructor — the source passes
`k_neighbors` straight through without validating it, and any exception
the constructor raises propagates uncaught, while a returned graph goes
on to `w.transform = "r"`. -/
def build_spatial_weights (isGeoDataFrame : Bool) (weightType : String)
    (k : ℤ) (queenW rookW : List (List (ℕ × ℚ)))
    (knnW : ℤ → Except String (List (List (ℕ × ℚ)))) :
    Except String (List (List (ℕ × ℚ))) :=
  if isGeoDataFrame = false then
    Except.error "Input must be a GeoDataFrame with geometry."
  else if weightType = "queen" then Except.ok (rowStandardize queenW)
  else if weightType = "rook" then Except.ok (rowStandardize rookW)
  else if weightType = "knn" then
    match knnW k with
    | Except.ok g => Except.ok (rowStandardize g)
    | Except.error e => Except.error e
  else Except.error "Unsupported weight_type"

/-- Dividing every weight of a row by `s` divides the row sum by `s`. -/
theorem rowWeightSum_div (row0 : List (ℕ × ℚ)) (s : ℚ) :
    rowWeightSum (row0.map (fun nb => (nb.1, nb.2 / s))) =
      rowWeightSum row0 / s := by
  unfold rowWeightSum
  rw [List.map_map]
  have hcomp : ((fun nb : ℕ × ℚ => nb.2) ∘ fun nb : ℕ × ℚ =>
      (nb.1, nb.2 / s)) = fun nb : ℕ × ℚ => nb.2 * s⁻¹ := by
    funext nb
    simp [div_eq_mul_inv]
  rw [hcomp, List.sum_map_mul_right, div_eq_mul_inv]

/-- Core fact about row standardization: positive pre-weights give each
non-island row the exact sum 1, and an island keeps sum 0. -/
theorem rowStandardize_sum (rows : List (List (ℕ × ℚ)))
    (hpos : ∀ row ∈ rows, ∀ nb ∈ row, 0 < nb.2) :
    ∀ row ∈ rowStandardize rows,
      (row ≠ [] → rowWeightSum row = 1) ∧ (row = [] → rowWeightSum row = 0) := by
  intro row hrow
  obtain ⟨row0, hrow0, hmap⟩ := List.mem_map.mp hrow
  refine ⟨?_, fun h => by rw [h]; rfl⟩
  intro hne
  by_cases hs : rowWeightSum row0 = 0
  · exfalso
    rw [if_pos hs] at hmap
    have h0 : row0 ≠ [] := fun h => hne (by rw [← hmap, h])
    have hlt : 0 < rowWeightSum row0 := by
      apply List.sum_pos
      · intro x hx
        obtain ⟨nb', hnb', hx'⟩ := List.mem_map.mp hx
        exact hx' ▸ hpos row0 hrow0 nb' hnb'
      · simpa using h0
    rw [hs] at hlt
    exact lt_irrefl 0 hlt
  · rw [if_neg hs] at hmap
    rw [← hmap, rowWeightSum_div]
    exact div_self hs

/-- C7: any weights graph `build_spatial_weights` returns is
row-standardized: a unit with at least one neighbor has outgoing weight
sum exactly 1 (in particular within 1e-9 of 1.0), and an island (zero
neighbors) has sum 0 — provided the dispatched constructor produced
positive (e.g. binary contiguity) pre-standardization weights. -/
theorem build_weights_row_standardized (isGeoDataFrame : Bool)
    (weightType : String) (k : ℤ) (queenW rookW : List (List (ℕ × ℚ)))
    (knnW : ℤ → Except String (List (List (ℕ × ℚ))))
    (hq : ∀ row ∈ queenW, ∀ nb ∈ row, 0 < nb.2)
    (hr : ∀ row ∈ rookW, ∀ nb ∈ row, 0 < nb.2)
    (hk : ∀ rows, knnW k = Except.ok rows → ∀ row ∈ rows, ∀ nb ∈ row, 0 < nb.2)
    (result : List (List (ℕ × ℚ)))
    (hres : build_spatial_weights isGeoDataFrame weightType k
      queenW rookW knnW = Except.ok result) :
    ∀ row ∈ result,
      (row ≠ [] → |rowWeightSum row - 1| ≤ 1/1000000000) ∧
      (row = [] → rowWeightSum row = 0) := by
  have main : ∀ rows, (∀ row ∈ rows, ∀ nb ∈ row, 0 < nb.2) →
      result = rowStandardize rows →
      ∀ row ∈ result,
        (row ≠ [] → |rowWeightSum row - 1| ≤ 1/1000000000) ∧
        (row = [] → rowWeightSum row = 0) := by
    intro rows hpos heq row hrow
    have h := rowStandardize_sum rows hpos row (heq ▸ hrow)
    refine ⟨fun hne => ?_, h.2⟩
    rw [h.1 hne]
    norm_num
  unfold build_spatial_weights at hres
  split_ifs at hres with h1 h2 h3 h4
  · exact main queenW hq (by injection hres with h; exact h.symm)
  · exact main rookW hr (by injection hres with h; exact h.symm)
  · cases hknn : knnW k with
    | ok g =>
      rw [hknn] at hres
      exact main g (hk g hknn) (by injection hres with h; exact h.symm)
    | error e =>
      rw [hknn] at hres
      exact absurd hres (by simp)

/-- Witness for C7: a two-unit mutual-neighbor graph plus an island,
with binary queen weights; the standardized first row sums to 1 and the
island row sums to 0. -/
theorem build_weights_row_standardized_witness :
    |rowWeightSum [((1 : ℕ), (1 : ℚ))] - 1| ≤ 1/1000000000 ∧
    rowWeightSum ([] : List (ℕ × ℚ)) = 0 := by
  have h := build_weights_row_standardized true "queen" 8
    [[(1, 2)], []] [] (fun _ => Except.error "KNN not used")
    (by intro row hrow nb hnb; fin_cases hrow <;> fin_cases hnb <;> norm_num)
    (by intro row hrow nb hnb; fin_cases hrow)
    (fun rows hrows => Except.noConfusion hrows)
    (rowStandardize [[(1, 2)], []]) rfl
  have hstd : rowStandardize [[((1 : ℕ), (2 : ℚ))], []] =
      [[((1 : ℕ), (1 : ℚ))], []] := by
    norm_num [rowStandardize, rowWeightSum]
  rw [hstd] at h
  exact ⟨(h [((1 : ℕ), (1 : ℚ))] (by simp)).1 (by simp),
    (h [] (by simp)).2 rfl⟩

/-- C8: the adjacency builder fails with an error — producing no weights
graph — both when the input is not a GeoDataFrame (the builder's own
`TypeError` at line 20) and when k-NN mode is requested with `k ≤ 0`:
the builder performs no k check of its own, but the library k-NN
construction raises before any weights object exists, and since the
builder wraps nothing in a handler the exception surfaces to the caller
with no graph produced. -/
theorem build_weights_config_errors (weightType : String) (k : ℤ)
    (queenW rookW : List (List (ℕ × ℚ)))
    (knnW : ℤ → Except String (List (List (ℕ × ℚ))))
    (knnGraph : ℤ → List (List (ℕ × ℚ))) :
    (build_spatial_weights false weightType k queenW rookW knnW =
       Except.error "Input must be a GeoDataFrame with geometry." ∧
     ∀ result, build_spatial_weights false weightType k queenW rookW knnW ≠
       Except.ok result) ∧
    (k ≤ 0 →
      build_spatial_weights true "knn" k queenW rookW
          (knnConstructor knnGraph) =
        Except.error "KNN construction raises for nonpositive k" ∧
      ∀ result, build_spatial_weights true "knn" k queenW rookW
          (knnConstructor knnGraph) ≠ Except.ok result) := by
  constructor
  · have heq : build_spatial_weights false weightType k queenW rookW knnW =
        Except.error "Input must be a GeoDataFrame with geometry." := rfl
    refine ⟨heq, ?_⟩
    intro result hok
    rw [heq] at hok
    exact Except.noConfusion hok
  · intro hk
    have hcon : knnConstructor knnGraph k =
        Except.error "KNN construction raises for nonpositive k" := by
      unfold knnConstructor
      rw [if_pos hk]
    have hmatch : build_spatial_weights true "knn" k queenW rookW
        (knnConstructor knnGraph) =
        match knnConstructor knnGraph k with
        | Except.ok g => Except.ok (rowStandardize g)
        | Except.error e => Except.error e := rfl
    have heq : build_spatial_weights true "knn" k queenW rookW
        (knnConstructor knnGraph) =
        Except.error "KNN construction raises for nonpositive k" := by
      rw [hmatch, hcon]
    refine ⟨heq, ?_⟩
    intro result hok
    rw [heq] at hok
    exact Except.noConfusion hok

/-- Witness for C8: at the concrete nonpositive `k = 0` the build fails
with the construction error (no graph), and a non-GeoDataFrame input
fails with the type error. -/
theorem build_weights_config_errors_witness :
    build_spatial_weights true "knn" 0 [] []
        (knnConstructor (fun _ => [])) =
      Except.error "KNN construction raises for nonpositive k" ∧
    build_spatial_weights false "queen" 8 [] []
        (fun _ => Except.ok []) =
      Except.error "Input must be a GeoDataFrame with geometry." :=
  ⟨((build_weights_config_errors "knn" 0 [] []
      (knnConstructor (fun _ => [])) (fun _ => [])).2 (le_refl 0)).1,
   (build_weights_config_errors "queen" 8 [] [] (fun _ => Except.ok [])
      (fun _ => [])).1.1⟩

/-! ## Cached-column short-circuit (export_esda_for_web.py, lines 46–51
and 168–169)

The script computes three flags up front from the loaded dataframe's
columns — `needs_lisa`, `needs_bv`, `needs_hotspot`, each testing one
sentinel output column — and enters the computation block only when at
least one flag is set; inside, each of the three computations runs only
under its own flag. The three computations are modelled as opaque
column-transformations passed in as functions. -/

def needs_lisa (cols : List String) : Bool :=
  !(cols.contains "trump_share_2016_lisa_cluster")

def needs_bv (cols : List String) : Bool :=
  !(cols.contains "bv_cluster")

def needs_hotspot (cols : List String) : Bool :=
  !(cols.contains "trump_share_2016_hotspot_conf")

/-- The guarded block structure of the export script: flags are computed
once from the incoming columns, then each computation runs only when its
flag is set; with no flag set the whole block is skipped and the
dataframe's columns pass through untouched. -/
def esdaPipeline (cols : List String)
    (computeLisa computeBv computeHotspot : List String → List String) :
    List String :=
  if needs_lisa cols || needs_bv cols || needs_hotspot cols then
    let c1 := if needs_lisa cols then computeLisa cols else cols
    let c2 := if needs_bv cols then computeBv c1 else c1
    let c3 := if needs_hotspot cols then computeHotspot c2 else c2
    c3
  else cols

/-- C9: when the three sentinel output columns are already present, the
pipeline is skipped entirely — the dataset passes through unchanged, no
matter what the computations would do — and each computation whose own
sentinel column is present is never invoked (the result does not depend
on it). -/
theorem esda_cached_skip (cols : List String)
    (fL fB fH : List String → List String) :
    (("trump_share_2016_lisa_cluster" ∈ cols ∧ "bv_cluster" ∈ cols ∧
        "trump_share_2016_hotspot_conf" ∈ cols) →
      esdaPipeline cols fL fB fH = cols) ∧
    ("trump_share_2016_lisa_cluster" ∈ cols →
      ∀ fL', esdaPipeline cols fL fB fH = esdaPipeline cols fL' fB fH) ∧
    ("bv_cluster" ∈ cols →
      ∀ fB', esdaPipeline cols fL fB fH = esdaPipeline cols fL fB' fH) ∧
    ("trump_share_2016_hotspot_conf" ∈ cols →
      ∀ fH', esdaPipeline cols fL fB fH = esdaPipeline cols fL fB fH') := by
  refine ⟨?_, ?_, ?_, ?_⟩
  · rintro ⟨h1, h2, h3⟩
    have e1 : needs_lisa cols = false := by simp [needs_lisa, h1]
    have e2 : needs_bv cols = false := by simp [needs_bv, h2]
    have e3 : needs_hotspot cols = false := by simp [needs_hotspot, h3]
    simp [esdaPipeline, e1, e2, e3]
  · intro h1 fL'
    have e1 : needs_lisa cols = false := by simp [needs_lisa, h1]
    simp [esdaPipeline, e1]
  · intro h2 fB'
    have e2 : needs_bv cols = false := by simp [needs_bv, h2]
    simp [esdaPipeline, e2]
  · intro h3 fH'
    have e3 : needs_hotspot cols = false := by simp [needs_hotspot, h3]
    simp [esdaPipeline, e3]

/-- Witness for C9: with all three sentinel columns present, three
computations that would each add a column are all skipped and the
column list passes through unchanged. -/
theorem esda_cached_skip_witness :
    esdaPipeline
      ["trump_share_2016_lisa_cluster", "bv_cluster",
       "trump_share_2016_hotspot_conf"]
      (fun c => "lisaX" :: c) (fun c => "bvX" :: c) (fun c => "hotX" :: c) =
      ["trump_share_2016_lisa_cluster", "bv_cluster",
       "trump_share_2016_hotspot_conf"] :=
  (esda_cached_skip
    ["trump_share_2016_lisa_cluster", "bv_cluster",
     "trump_share_2016_hotspot_conf"]
    (fun c => "lisaX" :: c) (fun c => "bvX" :: c) (fun c => "hotX" :: c)).1
    ⟨by decide, by decide, by decide⟩

/-! ## Spatial lag (spatial.py, lines 35–46)

`add_spatial_lag` checks the column exists (`ValueError` otherwise),
takes the provided weights (or builds queen weights), and computes
`w.sparse.dot(gdf[column].fillna(0).values)` — the sparse
matrix-vector product of the row-standardized weights with the column's
values after replacing nulls by 0 — appending it as `<column>_lag`. -/

/-- `fillna(0)`: a missing value becomes 0. -/
def fillnaZero (v : Option ℚ) : ℚ :=
  v.getD 0

/-- One row of the sparse dot product: sum over the row's stored
`(index, weight)` entries of weight times the filled value there. -/
def spatialLagRow (row : List (ℕ × ℚ)) (vals : List (Option ℚ)) : ℚ :=
  (row.map (fun nb => nb.2 * fillnaZero (vals.getD nb.1 none))).sum

/-- The lag vector `w.sparse.dot(column.fillna(0).values)`. -/
def add_spatial_lag (w : List (List (ℕ × ℚ))) (vals : List (Option ℚ)) :
    List ℚ :=
  w.map (fun row => spatialLagRow row vals)

/-- `add_spatial_lag` including the source's column-presence check. -/
def addSpatialLagChecked (cols : List String) (column : String)
    (w : List (List (ℕ × ℚ))) (vals : List (Option ℚ)) :
    Except String (List ℚ) :=
  if cols.contains column then Except.ok (add_spatial_lag w vals)
  else Except.error "Column not found in GeoDataFrame."

/-- Total weight a row assigns to unit `j` (0 when `j` is not among the
row's stored entries) — the dense reading of the sparse row. -/
def denseWeight (row : List (ℕ × ℚ)) (j : ℕ) : ℚ :=
  ((row.filter (fun nb => nb.1 == j)).map (fun nb => nb.2)).sum

/-- The lag of one unit as the spec words it: the weighted sum over all
units of the column's values, missing values replaced by 0. -/
def denseLagRow (row : List (ℕ × ℚ)) (vals : List (Option ℚ)) : ℚ :=
  Finset.sum (Finset.range vals.length)
    (fun j => denseWeight row j * fillnaZero (vals.getD j none))

theorem spatialLagRow_eq_dense (row : List (ℕ × ℚ)) (vals : List (Option ℚ))
    (hb : ∀ nb ∈ row, nb.1 < vals.length) :
    spatialLagRow row vals = denseLagRow row vals := by
  induction row with
  | nil =>
    simp [spatialLagRow, denseLagRow, denseWeight]
  | cons nb row ih =>
    have hb' : ∀ x ∈ row, x.1 < vals.length :=
      fun x hx => hb x (List.mem_cons_of_mem _ hx)
    have hnb : nb.1 < vals.length := hb nb (List.mem_cons_self _ _)
    have hdw : ∀ j, denseWeight (nb :: row) j =
        (if nb.1 = j then nb.2 else 0) + denseWeight row j := by
      intro j
      unfold denseWeight
      by_cases h : nb.1 = j <;> simp [List.filter_cons, h]
    have hsplit : denseLagRow (nb :: row) vals =
        nb.2 * fillnaZero (vals.getD nb.1 none) + denseLagRow row vals := by
      unfold denseLagRow
      have h1 : ∀ j ∈ Finset.range vals.length,
          denseWeight (nb :: row) j * fillnaZero (vals.getD j none) =
          (if nb.1 = j then nb.2 * fillnaZero (vals.getD j none) else 0) +
            denseWeight row j * fillnaZero (vals.getD j none) := by
        intro j _
        rw [hdw j, add_mul, ite_mul, zero_mul]
      rw [Finset.sum_congr rfl h1, Finset.sum_add_distrib,
        Finset.sum_ite_eq (Finset.range vals.length) nb.1
          (fun j => nb.2 * fillnaZero (vals.getD j none)),
        if_pos (Finset.mem_range.mpr hnb)]
    have hcons : spatialLagRow (nb :: row) vals =
        nb.2 * fillnaZero (vals.getD nb.1 none) + spatialLagRow row vals := by
      unfold spatialLagRow
      simp
    rw [hcons, hsplit, ih hb']

/-- Replacing a missing value by an explicit 0 changes no row's lag:
exactly what `fillna(0)` makes true, so a missing-value unit stays in
the product and contributes 0 to every neighbor's lag. -/
theorem spatialLagRow_set_missing (row : List (ℕ × ℚ))
    (vals : List (Option ℚ)) (j : ℕ) (hj : vals.getD j none = none) :
    spatialLagRow row (vals.set j (some 0)) = spatialLagRow row vals := by
  by_cases hlen : vals.length ≤ j
  · rw [List.set_eq_of_length_le hlen]
  · push_neg at hlen
    unfold spatialLagRow
    congr 1
    apply List.map_congr_left
    intro nb _
    by_cases h : nb.1 = j
    · rw [h, List.getD_eq_getElem?_getD, List.getElem?_set_self hlen, hj]
      rfl
    · rw [List.getD_eq_getElem?_getD, List.getElem?_set_ne (fun he => h he.symm),
        ← List.getD_eq_getElem?_getD]

/-- C10: for a column present in the dataframe, `add_spatial_lag`
returns (without error) the lag vector whose entry for each unit is the
weighted sum over all units of the column's values with missing values
replaced by 0, and a unit whose value is missing is not excluded — its
value may as well be an explicit 0, leaving every lag unchanged (it
contributes exactly 0). -/
theorem add_spatial_lag_correct (cols : List String) (column : String)
    (w : List (List (ℕ × ℚ))) (vals : List (Option ℚ))
    (hcol : column ∈ cols)
    (hb : ∀ row ∈ w, ∀ nb ∈ row, nb.1 < vals.length) :
    addSpatialLagChecked cols column w vals =
      Except.ok (add_spatial_lag w vals) ∧
    add_spatial_lag w vals = w.map (fun row => denseLagRow row vals) ∧
    (∀ j, vals.getD j none = none →
      add_spatial_lag w (vals.set j (some 0)) = add_spatial_lag w vals) := by
  refine ⟨by simp [addSpatialLagChecked, hcol], ?_, ?_⟩
  · unfold add_spatial_lag
    apply List.map_congr_left
    intro row hrow
    exact spatialLagRow_eq_dense row vals (hb row hrow)
  · intro j hj
    unfold add_spatial_lag
    apply List.map_congr_left
    intro row _
    exact spatialLagRow_set_missing row vals j hj

/-! ## Unseeded permutation invocations (export_esda_for_web.py,
lines 73, 107, 142)

The script invokes `Moran_Local(var_values, w_subset, permutations=999)`,
`Moran_Local_BV(var1_values, var2_values, w_subset, permutations=999)`
and `G_Local(var_values, w_subset, permutations=999)`. None of the three
calls passes a `seed`; esda's conditional permutation then draws from the
unseeded global random state, so the simulated statistics feeding the
pseudo p-value differ between two runs of the script. -/

/-- The keyword arguments the script supplies to an esda constructor. -/
structure EsdaCallArgs where
  permutations : ℕ
  seed : Option ℕ

/-- Line 73's `Moran_Local(...)` call: `permutations=999`, seed left at
its default `None`. -/
def moranLocalCall : EsdaCallArgs :=
  EsdaCallArgs.mk 999 none

/-- Line 107's `Moran_Local_BV(...)` call: `permutations=999`, no seed. -/
def moranLocalBvCall : EsdaCallArgs :=
  EsdaCallArgs.mk 999 none

/-- Line 142's `G_Local(...)` call: `permutations=999`, no seed. -/
def gLocalCall : EsdaCallArgs :=
  EsdaCallArgs.mk 999 none

/-- Modelled from the spec: the Permutation Test Engine's pseudo
p-value, `p = (count of permuted statistics at least as extreme as the
observed one + 1) / (R + 1)`, where `sims` are the `R` simulated
statistics drawn from the run's random state. -/
def pseudoPValue (obs : ℚ) (sims : List ℚ) : ℚ :=
  (((sims.filter (fun s => decide (obs ≤ s))).length : ℚ) + 1) /
    ((sims.length : ℚ) + 1)

/-- C1 fails on the code: all three esda invocations leave the seed at
`None`, and the pseudo p-value genuinely depends on the drawn
simulations — two unseeded runs over the same data and the same R whose
draws differ (here R = 2, simulated statistics `[0, 0]` versus `[2, 2]`
against observed 1) give pseudo p-values 1/3 and 1, which are not
bit-identical. -/
theorem unseeded_runs_not_reproducible :
    moranLocalCall.seed = none ∧ moranLocalBvCall.seed = none ∧
    gLocalCall.seed = none ∧
    pseudoPValue 1 [0, 0] ≠ pseudoPValue 1 [2, 2] := by
  refine ⟨rfl, rfl, rfl, ?_⟩
  have h1 : pseudoPValue 1 [0, 0] = 1/3 := by
    norm_num [pseudoPValue, List.filter]
  have h2 : pseudoPValue 1 [2, 2] = 1 := by
    norm_num [pseudoPValue, List.filter]
  rw [h1, h2]
  norm_num

/-- Witness for C10 on a two-unit graph where unit 1's value is missing:
the checked call succeeds and replacing the missing value by an explicit
0 leaves the lag vector unchanged. -/
theorem add_spatial_lag_correct_witness :
    addSpatialLagChecked ["pain"] "pain" [[(1, 1)], [(0, 1)]]
        [some 2, none] =
      Except.ok (add_spatial_lag [[(1, 1)], [(0, 1)]] [some 2, none]) ∧
    add_spatial_lag [[(1, 1)], [(0, 1)]]
        (List.set [some 2, none] 1 (some 0)) =
      add_spatial_lag [[(1, 1)], [(0, 1)]] [some 2, none] := by
  have h := add_spatial_lag_correct ["pain"] "pain" [[(1, 1)], [(0, 1)]]
    [some 2, none] (by decide)
    (by intro row hrow nb hnb; fin_cases hrow <;> fin_cases hnb <;> norm_num)
  exact ⟨h.1, h.2.2 1 rfl⟩
